import Mathlib

/-!
# Verification of maquette-query (selector matching, tree walking, query handles, simulator)

Shallow embedding of the two source files of the repository:
* `src/test-projector.ts` — `makeSelectorFunction`, `filterDescendants`,
  `collectTextContent`, `createQuery`, `createCollectionQuery`, `createTestProjector`;
* the bundled query/simulator module (`src/unnamed/part_000`) — `makeSelectorFunction`,
  `findAll`, `text`, `createEvent`, `createKeyEvent`, `createMouseEvent`,
  `createSimulator` (with `keyDown`/`keyUp`/`mouseDown`/`mouseUp`/`input`/`change`/
  `focus`/`blur`/`keyPress`).

JavaScript values are embedded as follows: `undefined`-able fields become `Option`,
exceptions become `Except`, object identity of event targets becomes an opaque `Nat`
token, and handler invocation is recorded in an explicit trace.
-/

namespace MaquetteQuery

/-- The handler properties a virtual node may carry.  The source stores handlers in an
open property bag and only ever tests them for presence before (or while) calling them;
we embed each handler as a presence flag and record invocations in a trace. -/
structure VNodeProperties where
  onkeydown : Bool := false
  onkeyup : Bool := false
  onmousedown : Bool := false
  onmouseup : Bool := false
  oninput : Bool := false
  onchange : Bool := false
  onfocus : Bool := false
  onblur : Bool := false
  deriving DecidableEq, Repr

/-- A maquette virtual node: `vnodeSelector` string, optional `text`, optional
`properties`, optional ordered `children`.  `children` and `text` may be absent
(`undefined` in the source), which we embed as `Option`. -/
inductive VNode : Type where
  | mk (vnodeSelector : String) (text : Option String)
       (properties : Option VNodeProperties) (children : Option (List VNode))
  deriving Repr

def VNode.vnodeSelector : VNode → String
  | .mk s _ _ _ => s

def VNode.text : VNode → Option String
  | .mk _ t _ _ => t

def VNode.properties : VNode → Option VNodeProperties
  | .mk _ _ p _ => p

def VNode.children : VNode → Option (List VNode)
  | .mk _ _ _ c => c

mutual

/-- Modelled from the spec: pre-order document order of all nodes of a tree — a node
before its children, children left-to-right.  This is the spec-side ordering that the
walkers of the source are compared against. -/
def preorder : VNode → List VNode
  | .mk s t p none => [.mk s t p none]
  | .mk s t p (some cs) => .mk s t p (some cs) :: preorderList cs

/-- Pre-order traversal of a forest, left-to-right. -/
def preorderList : List VNode → List VNode
  | [] => []
  | c :: cs => preorder c ++ preorderList cs

end

/-! ## Selector compiler (`makeSelectorFunction`, both source files — the bodies are
identical) -/

/-- Embedding of JavaScript `hay.indexOf(needle)` over character lists: the index of
the first occurrence of `needle` in `hay`, or `none` where the source gets `-1`. -/
def firstIndexOf (needle : List Char) : List Char → Option Nat
  | [] => if needle.isPrefixOf [] then some 0 else none
  | c :: t =>
      if needle.isPrefixOf (c :: t) then some 0
      else (firstIndexOf needle t).map (· + 1)

/-- `selector[0] === '.' || selector[0] === '#'` — in JavaScript, `""[0]` is
`undefined`, which is neither, so the empty selector takes the bare-tag branch. -/
def isClassOrId (selector : String) : Bool :=
  match selector.data with
  | [] => false
  | c :: _ => c = '.' || c = '#'

/-- `vNode.vnodeSelector.charAt(index + selector.length)` followed by the source's
`!nextChar || nextChar === '.' || nextChar === '#'`: `charAt` past the end gives the
empty (falsy) string, in range it gives the character at that position. -/
def nextCharOk (vnodeSelector : List Char) (j : Nat) : Bool :=
  match vnodeSelector.get? j with
  | none => true
  | some c => c = '.' || c = '#'

/-- The string-selector predicate built by `makeSelectorFunction`: find the first
occurrence of the selector in the node's selector string; a class/id fragment must
occur at index > 0, anything else at index 0; then the character after the fragment
must be absent, `.` or `#`.  When `indexOf` gives `-1` both branch conditions are
false and the source returns `false`, which the `none` case embeds. -/
def stringSelectorMatches (selector : String) (vNodeSelector : String) : Bool :=
  match firstIndexOf selector.data vNodeSelector.data with
  | none => false
  | some index =>
      if isClassOrId selector then
        decide (0 < index) && nextCharOk vNodeSelector.data (index + selector.length)
      else
        decide (index = 0) && nextCharOk vNodeSelector.data (index + selector.length)

/-- A selector argument: a literal string or a predicate function.  (Any other
JavaScript value makes the source throw `Invalid selector` synchronously; such a value
is not representable in the embedding.) -/
inductive Selector : Type where
  | str (s : String)
  | pred (p : VNode → Bool)

/-- `makeSelectorFunction`: a string becomes the fragment-matching predicate, a
function is returned unchanged. -/
def makeSelectorFunction : Selector → (VNode → Bool)
  | .str s => fun vNode => stringSelectorMatches s vNode.vnodeSelector
  | .pred p => p

/-! ## Tree walker -/

mutual

/-- `findAll` of the bundled module: push the current node when it matches, then
recurse into the children left-to-right, threading the `results` accumulator.  (The
source pushes `query(vnodeTree)` wrapper objects; the embedding records the wrapped
nodes themselves.) -/
def findAll (selector : VNode → Bool) : VNode → List VNode → List VNode
  | .mk s t p ch, results =>
      let r1 := if selector (.mk s t p ch) then results ++ [VNode.mk s t p ch] else results
      match ch with
      | none => r1
      | some cs => findAllList selector cs r1

/-- The `vnodeTree.children.forEach(child => findAll(selector, child, results))` loop. -/
def findAllList (selector : VNode → Bool) : List VNode → List VNode → List VNode
  | [], results => results
  | c :: cs, results => findAllList selector cs (findAll selector c results)

end

mutual

/-- The inner `visit` of `filterDescendants`: for each child, push it when the
predicate holds, then visit it; the starting node itself is never tested. -/
def filterVisit (predicate : VNode → Bool) : VNode → List VNode → List VNode
  | .mk _ _ _ none, results => results
  | .mk _ _ _ (some cs), results => filterVisitList predicate cs results

/-- The `vnodeTree.children.forEach(...)` loop of `visit`. -/
def filterVisitList (predicate : VNode → Bool) : List VNode → List VNode → List VNode
  | [], results => results
  | c :: cs, results =>
      filterVisitList predicate cs
        (filterVisit predicate c (if predicate c then results ++ [c] else results))

end

/-- `filterDescendants(root, predicate)`: matching strict descendants of `root` in
visit order. -/
def filterDescendants (root : VNode) (predicate : VNode → Bool) : List VNode :=
  filterVisit predicate root []

mutual

/-- `collectTextContent` (`text` in the bundled module): a node with selector `""`
pushes its `text` field unconditionally (possibly `undefined`, embedded as `none`);
any other node pushes its `text` only when truthy (present and non-empty) and then
recurses into its children. -/
def collectTextContent : VNode → List (Option String) → List (Option String)
  | .mk sel t _props ch, results =>
      if sel = "" then results ++ [t]
      else
        let r1 := match t with
          | some s => if s = "" then results else results ++ [some s]
          | none => results
        match ch with
        | none => r1
        | some cs => collectTextContentList cs r1

/-- The `vnodeTree.children.forEach(...)` loop of `collectTextContent`. -/
def collectTextContentList : List VNode → List (Option String) → List (Option String)
  | [], results => results
  | c :: cs, results => collectTextContentList cs (collectTextContent c results)

end

/-- `results.join('')`: JavaScript `join` renders `undefined` entries as the empty
string. -/
def joinTexts (results : List (Option String)) : String :=
  String.join (results.map (fun o => o.getD ""))

/-! ## Event synthesizer (bundled module: `createEvent`, `createKeyEvent`,
`createMouseEvent`, `createFocusEvent`, `createSimulator`)

Event targets are opaque JavaScript objects; the embedding identifies a target by a
`Nat` token, `none` standing for an omitted (`undefined`) `targetElement` argument.
Handler invocation is not observable inside a pure embedding, so every dispatch
returns the trace of invocations it performs alongside the event it returns. -/

structure MouseEventParameters where
  pageX : Option Int := none
  pageY : Option Int := none
  deriving DecidableEq, Repr

/-- The synthetic event object: `createEvent` fields plus the kind-specific `which`
(key events) and `pageX`/`pageY` (mouse events), absent (`none`) unless set. -/
structure SynthEvent where
  target : Option Nat
  defaultPrevented : Bool := false
  propagationStopped : Bool := false
  which : Option Int := none
  pageX : Option Int := none
  pageY : Option Int := none
  deriving DecidableEq, Repr

/-- `createEvent(target)`: flags start `false`, kind-specific fields absent. -/
def createEvent (target : Option Nat) : SynthEvent :=
  { target := target }

/-- The `preventDefault` closure: sets `defaultPrevented` on its event. -/
def SynthEvent.preventDefault (e : SynthEvent) : SynthEvent :=
  { e with defaultPrevented := true }

/-- The `stopPropagation` closure: sets `propagationStopped` on its event. -/
def SynthEvent.stopPropagation (e : SynthEvent) : SynthEvent :=
  { e with propagationStopped := true }

/-- `createKeyEvent(which, target)`: base event plus `which`. -/
def createKeyEvent (which : Int) (target : Option Nat) : SynthEvent :=
  { createEvent target with which := some which }

/-- `createMouseEvent(target, parameters?)`: when `parameters` is supplied the source
copies `parameters.pageX`/`parameters.pageY` onto the event (each may itself be
absent); when omitted the fields are never assigned. -/
def createMouseEvent (target : Option Nat) (parameters : Option MouseEventParameters) :
    SynthEvent :=
  match parameters with
  | none => createEvent target
  | some p => { createEvent target with pageX := p.pageX, pageY := p.pageY }

/-- `createFocusEvent(target)`: base event only. -/
def createFocusEvent (target : Option Nat) : SynthEvent :=
  createEvent target

inductive HandlerKind : Type where
  | keydown | keyup | mousedown | mouseup | input | change | focus | blur
  deriving DecidableEq, Repr

/-- One handler call performed by the simulator: which handler, with which event. -/
structure Invocation where
  handler : HandlerKind
  event : SynthEvent
  deriving DecidableEq, Repr

/-- Calling an absent handler property makes the source throw a `TypeError`
(`properties.onX is not a function`); the single-action dispatch methods do not guard
against it. -/
inductive SimError : Type where
  | missingHandler
  deriving DecidableEq, Repr

/-! The dispatch methods of `createSimulator(vnode)` read `properties =
vnode.properties`; the embedding takes that properties object directly (the source
throws while reading a handler off `undefined` if a node has no properties at all). -/

/-- `keyDown(keyCode, targetElement)`: build a key event, call `onkeydown` with it,
return it. -/
def keyDown (properties : VNodeProperties) (keyCode : Int) (targetElement : Option Nat) :
    Except SimError (SynthEvent × List Invocation) :=
  let event := createKeyEvent keyCode targetElement
  if properties.onkeydown then .ok (event, [⟨.keydown, event⟩]) else .error .missingHandler

/-- `keyUp(keyCode, targetElement)`. -/
def keyUp (properties : VNodeProperties) (keyCode : Int) (targetElement : Option Nat) :
    Except SimError (SynthEvent × List Invocation) :=
  let event := createKeyEvent keyCode targetElement
  if properties.onkeyup then .ok (event, [⟨.keyup, event⟩]) else .error .missingHandler

/-- `mouseDown(targetElement, parameters?)`: build a mouse event, call `onmousedown`
with it, return it. -/
def mouseDown (properties : VNodeProperties) (targetElement : Option Nat)
    (parameters : Option MouseEventParameters) :
    Except SimError (SynthEvent × List Invocation) :=
  let event := createMouseEvent targetElement parameters
  if properties.onmousedown then .ok (event, [⟨.mousedown, event⟩])
  else .error .missingHandler

/-- `mouseUp(targetElement, parameters?)`. -/
def mouseUp (properties : VNodeProperties) (targetElement : Option Nat)
    (parameters : Option MouseEventParameters) :
    Except SimError (SynthEvent × List Invocation) :=
  let event := createMouseEvent targetElement parameters
  if properties.onmouseup then .ok (event, [⟨.mouseup, event⟩]) else .error .missingHandler

/-- `input(targetElement)`: generic event to `oninput`. -/
def input (properties : VNodeProperties) (targetElement : Option Nat) :
    Except SimError (SynthEvent × List Invocation) :=
  let event := createEvent targetElement
  if properties.oninput then .ok (event, [⟨.input, event⟩]) else .error .missingHandler

/-- `change(targetElement)`: generic event to `onchange`. -/
def change (properties : VNodeProperties) (targetElement : Option Nat) :
    Except SimError (SynthEvent × List Invocation) :=
  let event := createEvent targetElement
  if properties.onchange then .ok (event, [⟨.change, event⟩]) else .error .missingHandler

/-- `focus(targetElement?)`: focus event to `onfocus`. -/
def focus (properties : VNodeProperties) (targetElement : Option Nat) :
    Except SimError (SynthEvent × List Invocation) :=
  let event := createFocusEvent targetElement
  if properties.onfocus then .ok (event, [⟨.focus, event⟩]) else .error .missingHandler

/-- `blur(targetElement?)`: focus event to `onblur`. -/
def blur (properties : VNodeProperties) (targetElement : Option Nat) :
    Except SimError (SynthEvent × List Invocation) :=
  let event := createFocusEvent targetElement
  if properties.onblur then .ok (event, [⟨.blur, event⟩]) else .error .missingHandler

/-- One observable action of `keyPress`: a mutation of the target's `value`, or a
handler invocation. -/
inductive Step : Type where
  | setValue (target : Nat) (value : String)
  | invoke (i : Invocation)
  deriving DecidableEq, Repr

/-- The token modelling the fresh empty object that `targetElement = targetElement ||
{}` allocates when the caller omits the target. -/
def freshTargetToken : Nat := 0

/-- `keyPress(keyCode, valueBefore, valueAfter, targetElement?)`: set `value` to
`valueBefore`; fire `onkeydown` if present; set `value` to `valueAfter`; fire
`onkeyup` if present; fire `oninput` with a generic event if present.  Each call is
guarded, so no step can fail; the function returns the ordered trace of actions. -/
def keyPress (properties : VNodeProperties) (keyCode : Int)
    (valueBefore valueAfter : String) (targetElement : Option Nat) : List Step :=
  let tgt := targetElement.getD freshTargetToken
  [Step.setValue tgt valueBefore]
    ++ (if properties.onkeydown then
          [Step.invoke ⟨.keydown, createKeyEvent keyCode (some tgt)⟩] else [])
    ++ [Step.setValue tgt valueAfter]
    ++ (if properties.onkeyup then
          [Step.invoke ⟨.keyup, createKeyEvent keyCode (some tgt)⟩] else [])
    ++ (if properties.oninput then
          [Step.invoke ⟨.input, createEvent (some tgt)⟩] else [])

/-! ## Query handles and the test projector (`test-projector.ts`)

A query handle wraps a zero-argument accessor that is re-run on every resolution.
The only mutable state an accessor closes over is the projector's
`renderMaquetteFunction`; the producer itself is pure, so the world state is the tree
the current producer would return — `none` when the projector is uninitialized.
Resolution is a pure function of the handle and that state. -/

/-- The errors a forced resolution can raise. -/
inductive QueryError : Type where
  /-- `'TestProjector is not initialized'`. -/
  | notInitialized
  /-- `'Query did not match a VNode'`. -/
  | nodeNotFound
  /-- A JavaScript `TypeError` from dereferencing `undefined` (e.g.
  `filterDescendants(undefined, p)` or `undefined[index]`). -/
  | typeErr
  deriving DecidableEq, Repr

/-- The projector's state: the tree its `renderMaquetteFunction` currently produces,
or `none` when the function is unset. -/
abbrev ProjState := Option VNode

/-- `getRootVNode` of `createTestProjector`: throw `NotInitialized` when the producer
is unset, otherwise produce the current tree. -/
def getRootVNode : ProjState → Except QueryError VNode
  | none => .error .notInitialized
  | some t => .ok t

/-- The synthetic parent `{children: [getRootVNode()]}` built by `createQueryStart`:
only its `children` field is populated in the source. -/
def syntheticStartNode (t : VNode) : VNode :=
  .mk "" none none (some [t])

/-- The handles reachable from a test projector: its `root`, the synthetic start
handle behind the projector-level `query`/`queryAll`, chained `query(selector)` (first
descendant match), `getChild(index)`, and `queryAll(selector).getResult(index)`. -/
inductive Handle : Type where
  | root
  | projStart
  | query (base : Handle) (selector : Selector)
  | child (base : Handle) (index : Nat)
  | collResult (base : Handle) (selector : Selector) (index : Nat)

/-- Re-run a handle's accessor against the current projector state.  Each case embeds
the closure the corresponding `createQuery` call captures:
`query` is `() => filterDescendants(getVNode(), predicate)[0]` (on an `undefined`
base the source's `visit` dereferences `undefined.children` — `typeErr`);
`getChild` is `() => getResult().children[index]` (a missing base raises
`NodeNotFound` inside `getResult`, absent `children` a `TypeError`);
`getResult` of a collection is `() => getVNodes()[index]`. -/
def resolve : Handle → ProjState → Except QueryError (Option VNode)
  | .root, s => (getRootVNode s).map some
  | .projStart, s => (getRootVNode s).map (fun t => some (syntheticStartNode t))
  | .query base selector, s =>
      match resolve base s with
      | .error e => .error e
      | .ok none => .error .typeErr
      | .ok (some v) => .ok (filterDescendants v (makeSelectorFunction selector)).head?
  | .child base index, s =>
      match resolve base s with
      | .error e => .error e
      | .ok none => .error .nodeNotFound
      | .ok (some v) =>
          match v.children with
          | none => .error .typeErr
          | some cs => .ok (cs.get? index)
  | .collResult base selector index, s =>
      match resolve base s with
      | .error e => .error e
      | .ok none => .error .typeErr
      | .ok (some v) =>
          .ok ((filterDescendants v (makeSelectorFunction selector)).get? index)

/-- `execute` (`getResult`) over an accessor's outcome: `'Query did not match a
VNode'` when the accessor produced no node; an exception thrown by the accessor
itself propagates. -/
def executeOf (acc : Except QueryError (Option VNode)) : Except QueryError VNode :=
  match acc with
  | .error e => .error e
  | .ok none => .error .nodeNotFound
  | .ok (some v) => .ok v

/-- `exists: () => !!getVNode()` over an accessor's outcome. -/
def existsOf (acc : Except QueryError (Option VNode)) : Except QueryError Bool :=
  acc.map Option.isSome

/-- The `textContent` getter: `collectTextContent(getResult(), []).join('')`. -/
def textContentOf (acc : Except QueryError (Option VNode)) : Except QueryError String :=
  (executeOf acc).map (fun v => joinTexts (collectTextContent v []))

/-- The `vnodeSelector` getter: `getResult().vnodeSelector`. -/
def vnodeSelectorOf (acc : Except QueryError (Option VNode)) : Except QueryError String :=
  (executeOf acc).map VNode.vnodeSelector

/-- The `properties` getter: `getResult().properties`. -/
def propertiesOf (acc : Except QueryError (Option VNode)) :
    Except QueryError (Option VNodeProperties) :=
  (executeOf acc).map VNode.properties

/-- The `children` getter: `getResult().children`. -/
def childrenOf (acc : Except QueryError (Option VNode)) :
    Except QueryError (Option (List VNode)) :=
  (executeOf acc).map VNode.children

def Handle.execute (h : Handle) (s : ProjState) : Except QueryError VNode :=
  executeOf (resolve h s)

/-- `exists()` of a handle (`exists` is reserved in Lean, hence the `Q`). -/
def Handle.existsQ (h : Handle) (s : ProjState) : Except QueryError Bool :=
  existsOf (resolve h s)

def Handle.textContent (h : Handle) (s : ProjState) : Except QueryError String :=
  textContentOf (resolve h s)

def Handle.vnodeSelector (h : Handle) (s : ProjState) : Except QueryError String :=
  vnodeSelectorOf (resolve h s)

def Handle.properties (h : Handle) (s : ProjState) :
    Except QueryError (Option VNodeProperties) :=
  propertiesOf (resolve h s)

def Handle.children (h : Handle) (s : ProjState) :
    Except QueryError (Option (List VNode)) :=
  childrenOf (resolve h s)

/-- The collection accessor behind `queryAll`:
`() => filterDescendants(getVNode(), predicate)`, which is also the collection's
`execute`. -/
def collExecute (base : Handle) (selector : Selector) (s : ProjState) :
    Except QueryError (List VNode) :=
  match resolve base s with
  | .error e => .error e
  | .ok none => .error .typeErr
  | .ok (some v) => .ok (filterDescendants v (makeSelectorFunction selector))

/-- The collection's live `length` getter: `getVNodes().length`. -/
def collLength (base : Handle) (selector : Selector) (s : ProjState) :
    Except QueryError Nat :=
  (collExecute base selector s).map List.length

/-- The projector's producer-rebinding method (`initialize` is reserved in Lean,
hence the suffix): rebind `renderMaquetteFunction` so that it now produces `t`. -/
def initializeProj (t : VNode) (_s : ProjState) : ProjState := some t

/-- The projector's producer-unsetting method: `renderMaquetteFunction = undefined`. -/
def uninitializeProj (_s : ProjState) : ProjState := none

/-- The projector-level `queryAll` (via `createQueryStart`). -/
def projectorQueryAll (selector : Selector) (s : ProjState) :
    Except QueryError (List VNode) :=
  collExecute .projStart selector s

/-- The temporal scenario of the `uninitialize` contract: initialize the projector so
it produces `t`, resolve `h` (the "before" value), call `uninitialize()`, resolve `h`
again (the "after" value). -/
def uninitScenario (h : Handle) (t : VNode) :
    Except QueryError (Option VNode) × Except QueryError (Option VNode) :=
  let s1 := initializeProj t none
  let before := resolve h s1
  let s2 := uninitializeProj s1
  (before, resolve h s2)

/-- The temporal scenario of the freshness contract: resolve `h` while the producer
renders `t1`, rebind the producer to render `t2`, resolve the same handle again. -/
def rebindScenario (h : Handle) (t1 t2 : VNode) :
    Except QueryError (Option VNode) × Except QueryError (Option VNode) :=
  let s1 := initializeProj t1 none
  let r1 := resolve h s1
  let s2 := initializeProj t2 s1
  (r1, resolve h s2)

/-! ## Spec-side views used to state document order -/

/-- The forest a node's walk descends into: its children, or nothing when absent. -/
def preorderForestOf : VNode → List VNode
  | .mk _ _ _ none => []
  | .mk _ _ _ (some cs) => preorderList cs

/-- Modelled from the spec: the text entries one node contributes to `textContent` —
a text node (selector `""`) contributes its `text` field, any other node its `text`
only when truthy. -/
def truthyText : Option String → List (Option String)
  | some s => if s = "" then [] else [some s]
  | none => []

/-- See `truthyText`. -/
def nodeTexts (v : VNode) : List (Option String) :=
  if v.vnodeSelector = "" then [v.text] else truthyText v.text

mutual

/-- The §3 invariant of the spec: a node with selector `""` is a text node and has no
children.  (`collectTextContent` never descends below a `""` node, so document order
of the collected text is only meaningful on trees satisfying this.) -/
def noTextChildren : VNode → Bool
  | .mk _ _ _ none => true
  | .mk sel _ _ (some cs) => (decide (sel ≠ "") || cs.isEmpty) && noTextChildrenList cs

/-- `noTextChildren` over a forest. -/
def noTextChildrenList : List VNode → Bool
  | [] => true
  | c :: cs => noTextChildren c && noTextChildrenList cs

end

/-! ## Walker lemmas: the accumulator-threading walkers compute pre-order filters -/

mutual

theorem findAll_eq (p : VNode → Bool) (t : VNode) (r : List VNode) :
    findAll p t r = r ++ (preorder t).filter p := by
  match t with
  | .mk s tx pr none =>
      simp only [findAll, preorder]
      cases h : p (VNode.mk s tx pr none) <;> simp [h, List.filter]
  | .mk s tx pr (some cs) =>
      rw [findAll, findAllList_eq]
      cases h : p (VNode.mk s tx pr (some cs)) <;>
        simp [h, preorder, List.filter_cons]

theorem findAllList_eq (p : VNode → Bool) (cs : List VNode) (r : List VNode) :
    findAllList p cs r = r ++ (preorderList cs).filter p := by
  match cs with
  | [] => simp [findAllList, preorderList]
  | c :: cs' =>
      rw [findAllList, findAll_eq, findAllList_eq]
      simp [preorderList, List.filter_append]

end

theorem preorder_filter_split (p : VNode → Bool) (t : VNode) :
    (preorder t).filter p
      = (if p t then [t] else []) ++ (preorderForestOf t).filter p := by
  cases t with
  | mk s tx pr ch =>
      cases ch <;> cases h : p (VNode.mk s tx pr _) <;>
        simp_all [preorder, preorderForestOf, List.filter_cons]

theorem preorder_drop_one (t : VNode) : (preorder t).drop 1 = preorderForestOf t := by
  cases t with
  | mk s tx pr ch => cases ch <;> simp [preorder, preorderForestOf]

mutual

theorem filterVisit_eq (p : VNode → Bool) (t : VNode) (r : List VNode) :
    filterVisit p t r = r ++ (preorderForestOf t).filter p := by
  match t with
  | .mk s tx pr none => simp [filterVisit, preorderForestOf]
  | .mk s tx pr (some cs) =>
      rw [filterVisit, filterVisitList_eq]
      simp [preorderForestOf]

theorem filterVisitList_eq (p : VNode → Bool) (cs : List VNode) (r : List VNode) :
    filterVisitList p cs r = r ++ (preorderList cs).filter p := by
  match cs with
  | [] => simp [filterVisitList, preorderList]
  | c :: cs' =>
      rw [filterVisitList, filterVisit_eq, filterVisitList_eq]
      rw [preorderList, List.filter_append, preorder_filter_split]
      cases h : p c <;> simp [h]

end

theorem filterDescendants_eq (t : VNode) (p : VNode → Bool) :
    filterDescendants t p = ((preorder t).drop 1).filter p := by
  rw [filterDescendants, filterVisit_eq, preorder_drop_one]
  simp

/-- The synthetic start parent makes the produced root itself the first visited
child: the projector-level walk tests the root and then its descendants. -/
theorem filterDescendants_syntheticStart (t : VNode) (p : VNode → Bool) :
    filterDescendants (syntheticStartNode t) p
      = (if p t then [t] else []) ++ (preorderForestOf t).filter p := by
  rw [syntheticStartNode, filterDescendants, filterVisit, filterVisitList,
    filterVisitList, filterVisit_eq]
  cases h : p t <;> simp [h]

mutual

theorem collectTextContent_eq (t : VNode) (r : List (Option String))
    (h : noTextChildren t = true) :
    collectTextContent t r = r ++ (preorder t).flatMap nodeTexts := by
  match t with
  | .mk sel tx pr ch =>
      by_cases hs : sel = ""
      · subst hs
        cases ch with
        | none =>
            simp [collectTextContent, preorder, nodeTexts, VNode.vnodeSelector,
              VNode.text]
        | some cs =>
            rw [noTextChildren] at h
            simp at h
            obtain ⟨hcs, -⟩ := h
            subst hcs
            simp [collectTextContent, preorder, preorderList, nodeTexts,
              VNode.vnodeSelector, VNode.text]
      · cases ch with
        | none =>
            simp [collectTextContent, hs, preorder, nodeTexts,
              VNode.vnodeSelector, VNode.text, truthyText]
            cases tx with
            | none => simp [truthyText]
            | some s => by_cases h0 : s = "" <;> simp [h0, truthyText]
        | some cs =>
            rw [noTextChildren, Bool.and_eq_true] at h
            obtain ⟨-, hcs⟩ := h
            simp only [collectTextContent, hs, if_false]
            rw [collectTextContentList_eq cs _ hcs]
            rw [preorder]
            simp only [List.flatMap_cons]
            have hnt : nodeTexts (VNode.mk sel tx pr (some cs)) = truthyText tx := by
              simp [nodeTexts, VNode.vnodeSelector, VNode.text, hs]
            rw [hnt]
            cases tx with
            | none => simp [truthyText]
            | some s => by_cases h0 : s = "" <;> simp [h0, truthyText]

theorem collectTextContentList_eq (cs : List VNode) (r : List (Option String))
    (h : noTextChildrenList cs = true) :
    collectTextContentList cs r = r ++ (preorderList cs).flatMap nodeTexts := by
  match cs with
  | [] => simp [collectTextContentList, preorderList]
  | c :: cs' =>
      rw [noTextChildrenList, Bool.and_eq_true] at h
      rw [collectTextContentList, collectTextContent_eq c r h.1,
        collectTextContentList_eq cs' _ h.2, preorderList]
      simp

end

/-! ## Structural lemmas: a tree is never its own strict descendant -/

mutual

theorem sizeOf_le_of_mem_preorder {x t : VNode} (h : x ∈ preorder t) :
    sizeOf x ≤ sizeOf t := by
  match t with
  | .mk s tx pr none =>
      rw [preorder] at h
      simp at h
      subst h
      exact le_refl _
  | .mk s tx pr (some cs) =>
      rw [preorder] at h
      rcases List.mem_cons.mp h with h1 | h2
      · subst h1; exact le_refl _
      · have := sizeOf_lt_of_mem_preorderList h2
        have hlt : sizeOf cs < sizeOf (VNode.mk s tx pr (some cs)) := by
          simp only [VNode.mk.sizeOf_spec, Option.some.sizeOf_spec]
          omega
        omega

theorem sizeOf_lt_of_mem_preorderList {x : VNode} {cs : List VNode}
    (h : x ∈ preorderList cs) : sizeOf x < sizeOf cs := by
  match cs with
  | [] => rw [preorderList] at h; cases h
  | c :: cs' =>
      rw [preorderList] at h
      rcases List.mem_append.mp h with h1 | h2
      · have := sizeOf_le_of_mem_preorder h1
        have : sizeOf c < sizeOf (c :: cs') := by
          simp only [List.cons.sizeOf_spec]; omega
        omega
      · have := sizeOf_lt_of_mem_preorderList h2
        have : sizeOf cs' < sizeOf (c :: cs') := by
          simp only [List.cons.sizeOf_spec]; omega
        omega

end

theorem not_mem_filterDescendants_self (t : VNode) (p : VNode → Bool) :
    t ∉ filterDescendants t p := by
  intro hmem
  rw [filterDescendants_eq, preorder_drop_one] at hmem
  have hx := List.mem_of_mem_filter hmem
  cases t with
  | mk s tx pr ch =>
      cases ch with
      | none => rw [preorderForestOf] at hx; cases hx
      | some cs =>
          rw [preorderForestOf] at hx
          have h1 := sizeOf_lt_of_mem_preorderList hx
          have h2 : sizeOf cs < sizeOf (VNode.mk s tx pr (some cs)) := by
            simp only [VNode.mk.sizeOf_spec, Option.some.sizeOf_spec]; omega
          omega

/-! ## Resolution lemmas -/

/-- Every handle rooted at an uninitialized projector propagates `NotInitialized`
when its resolution is forced. -/
theorem resolve_uninitialized (h : Handle) :
    resolve h (none : ProjState) = .error .notInitialized := by
  induction h with
  | root => simp [resolve, getRootVNode, Except.map]
  | projStart => simp [resolve, getRootVNode, Except.map]
  | query base sel ih => simp only [resolve, ih]
  | child base i ih => simp only [resolve, ih]
  | collResult base sel i ih => simp only [resolve, ih]

/-- Characterisation of the string-selector predicate: the match succeeds exactly
when the first occurrence of the fragment sits at a position consistent with its kind
and is followed by end-of-string, `.` or `#`. -/
theorem stringSelectorMatches_iff (selector vNodeSelector : String) :
    stringSelectorMatches selector vNodeSelector = true ↔
      ∃ index, firstIndexOf selector.data vNodeSelector.data = some index ∧
        (if isClassOrId selector then 0 < index else index = 0) ∧
        nextCharOk vNodeSelector.data (index + selector.length) = true := by
  rw [stringSelectorMatches]
  cases hidx : firstIndexOf selector.data vNodeSelector.data with
  | none => simp
  | some i =>
      cases hk : isClassOrId selector <;>
        simp [hk, Bool.and_eq_true, decide_eq_true_eq]


/-- The scenario tree of the spec:
`div > [div.here, div > [div.here.too, div.and.here.too]]`. -/
def sampleTree : VNode :=
  .mk "div" none none (some
    [.mk "div.here" none none none,
     .mk "div" none none (some
       [.mk "div.here.too" none none none,
        .mk "div.and.here.too" none none none])])

/-- C1: `findAll` returns the matching nodes of the whole tree in pre-order document
order (node before children, children left-to-right), `filterDescendants` — the scan
behind `queryAll` — the matching strict descendants in the same order, `queryAll` on
any resolved handle is that scan on the current node, and re-running an unchanged
query yields the identical ordered sequence. -/
theorem C1_queryAll_preorder_document_order :
    ∀ (p : VNode → Bool) (t : VNode),
      findAll p t [] = (preorder t).filter p ∧
      filterDescendants t p = ((preorder t).drop 1).filter p ∧
      (∀ (base : Handle) (selector : Selector) (s : ProjState) (v : VNode),
        resolve base s = Except.ok (some v) →
        collExecute base selector s
          = Except.ok (((preorder v).drop 1).filter (makeSelectorFunction selector))) ∧
      (∀ (base : Handle) (selector : Selector) (s : ProjState) (l1 l2 : List VNode),
        collExecute base selector s = Except.ok l1 →
        collExecute base selector s = Except.ok l2 → l1 = l2) := by
  intro p t
  refine ⟨by simpa using findAll_eq p t [], filterDescendants_eq t p, ?_, ?_⟩
  · intro base selector s v hres
    rw [collExecute, hres]
    show Except.ok (filterDescendants v (makeSelectorFunction selector)) = _
    rw [filterDescendants_eq]
  · intro base selector s l1 l2 h1 h2
    rw [h1] at h2
    exact Except.ok.inj h2

/-- Witness for C1: the scenario query `queryAll('.here')` on the sample tree. -/
theorem C1_queryAll_preorder_document_order_witness :
    collExecute Handle.root (Selector.str ".here") (some sampleTree)
      = Except.ok (((preorder sampleTree).drop 1).filter
          (makeSelectorFunction (Selector.str ".here"))) :=
  (C1_queryAll_preorder_document_order (fun _ => true) sampleTree).2.2.1
    Handle.root (Selector.str ".here") (some sampleTree) sampleTree rfl

/-- C2: string-selector matching is exact-fragment: `.foo` matches neither `.foobar`
nor `barfoo`, `div` does not match `divider`; any successful match places the first
occurrence of a class/id fragment at index > 0 and of a bare tag at index 0, with the
character following the fragment absent, `.` or `#`; and each fragment of the
compound `div.and.here.too` is found at its boundary. -/
theorem C2_selector_exact_fragment :
    stringSelectorMatches ".foo" ".foobar" = false ∧
    stringSelectorMatches ".foo" "barfoo" = false ∧
    stringSelectorMatches "div" "divider" = false ∧
    (∀ selector vNodeSelector : String,
      stringSelectorMatches selector vNodeSelector = true →
      ∃ index, firstIndexOf selector.data vNodeSelector.data = some index ∧
        (isClassOrId selector = true → 0 < index) ∧
        (isClassOrId selector = false → index = 0) ∧
        nextCharOk vNodeSelector.data (index + selector.length) = true) ∧
    stringSelectorMatches "div" "div.and.here.too" = true ∧
    stringSelectorMatches ".and" "div.and.here.too" = true ∧
    stringSelectorMatches ".here" "div.and.here.too" = true ∧
    stringSelectorMatches ".too" "div.and.here.too" = true := by
  refine ⟨by decide, by decide, by decide, ?_, by decide, by decide, by decide,
    by decide⟩
  intro selector vNodeSelector h
  obtain ⟨i, hidx, hpos, hnext⟩ := (stringSelectorMatches_iff _ _).mp h
  refine ⟨i, hidx, ?_, ?_, hnext⟩
  · intro hk; rw [hk] at hpos; simpa using hpos
  · intro hk; rw [hk] at hpos; simpa using hpos

/-- Witness for C2's general part at `.here` against `div.and.here.too`. -/
theorem C2_selector_exact_fragment_witness :
    ∃ index, firstIndexOf ".here".data "div.and.here.too".data = some index ∧
      (isClassOrId ".here" = true → 0 < index) ∧
      (isClassOrId ".here" = false → index = 0) ∧
      nextCharOk "div.and.here.too".data (index + ".here".length) = true :=
  C2_selector_exact_fragment.2.2.2.1 ".here" "div.and.here.too" (by decide)

/-- C3: whenever a handle's accessor returns (with any number of matches — `none` or
`some`), `exists()` returns a boolean rather than throwing, and `execute()` as well
as the derived reads `textContent`, `vnodeSelector`, `properties` and `children`
raise `NodeNotFound` exactly when `exists()` is `false`. -/
theorem C3_exists_never_throws :
    ∀ (h : Handle) (s : ProjState) (r : Option VNode),
      resolve h s = Except.ok r →
      Handle.existsQ h s = Except.ok r.isSome ∧
      (Handle.execute h s = Except.error QueryError.nodeNotFound ↔
        Handle.existsQ h s = Except.ok false) ∧
      (Handle.textContent h s = Except.error QueryError.nodeNotFound ↔
        Handle.existsQ h s = Except.ok false) ∧
      (Handle.vnodeSelector h s = Except.error QueryError.nodeNotFound ↔
        Handle.existsQ h s = Except.ok false) ∧
      (Handle.properties h s = Except.error QueryError.nodeNotFound ↔
        Handle.existsQ h s = Except.ok false) ∧
      (Handle.children h s = Except.error QueryError.nodeNotFound ↔
        Handle.existsQ h s = Except.ok false) := by
  intro h s r hres
  cases r with
  | none =>
      simp [Handle.existsQ, existsOf, Handle.execute, executeOf, Handle.textContent,
        textContentOf, Handle.vnodeSelector, vnodeSelectorOf, Handle.properties,
        propertiesOf, Handle.children, childrenOf, hres, Except.map]
  | some v =>
      simp [Handle.existsQ, existsOf, Handle.execute, executeOf, Handle.textContent,
        textContentOf, Handle.vnodeSelector, vnodeSelectorOf, Handle.properties,
        propertiesOf, Handle.children, childrenOf, hres, Except.map]

/-- Witness for C3 at the root handle of an initialized projector. -/
theorem C3_exists_never_throws_witness :
    Handle.existsQ Handle.root (some sampleTree)
      = Except.ok (some sampleTree : Option VNode).isSome :=
  (C3_exists_never_throws Handle.root (some sampleTree) (some sampleTree) rfl).1



/-- C4: `keyPress(keyCode, valueBefore, valueAfter, target)` performs exactly the
sequence set-value-before, keydown (if wired), set-value-after, keyup (if wired),
input (if wired): with all three handlers wired they fire in the order keydown →
keyup → input, and with `oninput` absent the first two still fire and the call still
returns (each step is guarded, so nothing is invoked unguarded). -/
theorem C4_keyPress_order :
    ∀ (properties : VNodeProperties) (keyCode : Int) (valueBefore valueAfter : String)
      (target : Nat),
      (properties.onkeydown = true → properties.onkeyup = true →
        properties.oninput = true →
        keyPress properties keyCode valueBefore valueAfter (some target) =
          [Step.setValue target valueBefore,
           Step.invoke ⟨HandlerKind.keydown, createKeyEvent keyCode (some target)⟩,
           Step.setValue target valueAfter,
           Step.invoke ⟨HandlerKind.keyup, createKeyEvent keyCode (some target)⟩,
           Step.invoke ⟨HandlerKind.input, createEvent (some target)⟩]) ∧
      (properties.onkeydown = true → properties.onkeyup = true →
        properties.oninput = false →
        keyPress properties keyCode valueBefore valueAfter (some target) =
          [Step.setValue target valueBefore,
           Step.invoke ⟨HandlerKind.keydown, createKeyEvent keyCode (some target)⟩,
           Step.setValue target valueAfter,
           Step.invoke ⟨HandlerKind.keyup, createKeyEvent keyCode (some target)⟩]) := by
  intro properties keyCode valueBefore valueAfter target
  constructor <;> (intro h1 h2 h3; simp [keyPress, h1, h2, h3, Option.getD])

/-- Witness for C4: `keyPress(13, "", "a")` with all three handlers wired. -/
theorem C4_keyPress_order_witness :
    keyPress { onkeydown := true, onkeyup := true, oninput := true } 13 "" "a"
        (some 1) =
      [Step.setValue 1 "",
       Step.invoke ⟨HandlerKind.keydown, createKeyEvent 13 (some 1)⟩,
       Step.setValue 1 "a",
       Step.invoke ⟨HandlerKind.keyup, createKeyEvent 13 (some 1)⟩,
       Step.invoke ⟨HandlerKind.input, createEvent (some 1)⟩] :=
  (C4_keyPress_order { onkeydown := true, onkeyup := true, oninput := true }
    13 "" "a" 1).1 rfl rfl rfl

/-- C5: after `uninitialize()`, forcing resolution of any handle rooted at the
projector raises `NotInitialized`; the value of a resolution performed before
`uninitialize()` is exactly the resolution against the then-current state and is
untouched by the later call. -/
theorem C5_uninitialize_next_resolution :
    ∀ (h : Handle) (t : VNode),
      (uninitScenario h t).2 = Except.error QueryError.notInitialized ∧
      (uninitScenario h t).1 = resolve h (some t) := by
  intro h t
  exact ⟨resolve_uninitialized h, rfl⟩

/-- C6: resolutions are never memoized: a handle resolved after the producer is
rebound yields exactly the resolution against the new tree (and the earlier
resolution was against the old tree), and a `query` handle's accessor re-runs the
descendant walk against the current resolution of its base handle. -/
theorem C6_resolution_tracks_rebinding :
    ∀ (h : Handle) (t1 t2 : VNode),
      (rebindScenario h t1 t2).2 = resolve h (some t2) ∧
      (rebindScenario h t1 t2).1 = resolve h (some t1) ∧
      (∀ (base : Handle) (selector : Selector) (s : ProjState) (v : VNode),
        resolve base s = Except.ok (some v) →
        resolve (Handle.query base selector) s =
          Except.ok (filterDescendants v (makeSelectorFunction selector)).head?) := by
  intro h t1 t2
  refine ⟨rfl, rfl, ?_⟩
  intro base selector s v hres
  rw [resolve, hres]

/-- Witness for C6 at the root of the sample tree. -/
theorem C6_resolution_tracks_rebinding_witness :
    resolve (Handle.query Handle.root (Selector.str ".here")) (some sampleTree) =
      Except.ok (filterDescendants sampleTree
        (makeSelectorFunction (Selector.str ".here"))).head? :=
  (C6_resolution_tracks_rebinding Handle.root sampleTree sampleTree).2.2
    Handle.root (Selector.str ".here") (some sampleTree) sampleTree rfl

/-- C7: `mouseDown(target, {pageX: 10, pageY: 20})` returns an event carrying exactly
the supplied `pageX`/`pageY` and the supplied target, and invokes `onmousedown`
exactly once with that same event; with the parameters argument omitted `pageX` and
`pageY` are absent, not zero. -/
theorem C7_mouseDown_event :
    ∀ (properties : VNodeProperties) (target : Nat) (px py : Int),
      properties.onmousedown = true →
      (mouseDown properties (some target) (some ⟨some px, some py⟩) =
        Except.ok (⟨some target, false, false, none, some px, some py⟩,
          [⟨HandlerKind.mousedown, ⟨some target, false, false, none, some px, some py⟩⟩])) ∧
      (mouseDown properties (some target) none =
        Except.ok (⟨some target, false, false, none, none, none⟩,
          [⟨HandlerKind.mousedown, ⟨some target, false, false, none, none, none⟩⟩])) := by
  intro properties target px py hmd
  constructor <;> simp [mouseDown, createMouseEvent, createEvent, hmd]

/-- Witness for C7: `mouseDown(5, {pageX: 10, pageY: 20})` with `onmousedown` wired. -/
theorem C7_mouseDown_event_witness :
    mouseDown { onmousedown := true } (some 5) (some ⟨some 10, some 20⟩) =
      Except.ok (⟨some 5, false, false, none, some 10, some 20⟩,
        [⟨HandlerKind.mousedown, ⟨some 5, false, false, none, some 10, some 20⟩⟩]) :=
  (C7_mouseDown_event { onmousedown := true } 5 10 20 rfl).1



/-- A tree with text nodes, used as witness data: `div > ["hello ", span > ["world"]]`. -/
def textSampleTree : VNode :=
  .mk "div" none none (some
    [.mk "" (some "hello ") none none,
     .mk "span" none none (some [.mk "" (some "world") none none])])

/-- C8: `textContent` collection is a pre-order concatenation: a node with selector
`""` emits its own `text` field, any other node descends into its children, and on
trees respecting the text-node invariant the collected entries are exactly the
per-node texts in document order (so the joined `textContent` string follows document
order too). -/
theorem C8_textContent_document_order :
    ∀ t : VNode,
      (t.vnodeSelector = "" → ∀ r, collectTextContent t r = r ++ [t.text]) ∧
      (noTextChildren t = true →
        collectTextContent t [] = (preorder t).flatMap nodeTexts) ∧
      (noTextChildren t = true →
        textContentOf (Except.ok (some t)) =
          Except.ok (joinTexts ((preorder t).flatMap nodeTexts))) := by
  intro t
  refine ⟨?_, ?_, ?_⟩
  · intro hsel r
    cases t with
    | mk sel tx pr ch =>
        simp only [VNode.vnodeSelector] at hsel
        subst hsel
        simp [collectTextContent, VNode.text]
  · intro h
    simpa using collectTextContent_eq t [] h
  · intro h
    simp only [textContentOf, executeOf, Except.map]
    rw [collectTextContent_eq t [] h]
    simp

/-- Witness for C8 at a tree with two text nodes. -/
theorem C8_textContent_document_order_witness :
    collectTextContent textSampleTree []
      = (preorder textSampleTree).flatMap nodeTexts :=
  (C8_textContent_document_order textSampleTree).2.1 (by decide)


/-- A collection's `getResult(index)` resolves to the index-th entry of the freshly
recomputed match list. -/
theorem resolve_collResult (base : Handle) (selector : Selector) (index : Nat)
    (s : ProjState) :
    resolve (Handle.collResult base selector index) s
      = (collExecute base selector s).map (fun l => l.get? index) := by
  simp only [resolve, collExecute]
  cases resolve base s with
  | error e => rfl
  | ok r => cases r <;> rfl

/-- `getChild(index)` resolves by indexing into the children of the re-executed base
handle. -/
theorem resolve_child_eq (base : Handle) (index : Nat) (s : ProjState) :
    resolve (Handle.child base index) s
      = match Handle.execute base s with
        | .error e => .error e
        | .ok v =>
            match v.children with
            | none => .error QueryError.typeErr
            | some cs => .ok (cs.get? index) := by
  simp only [resolve, Handle.execute, executeOf]
  cases resolve base s with
  | error e => rfl
  | ok r => cases r <;> rfl

/-- C9: indexing past the end never fails at call time: when the collection's match
list has length at most `index`, `getResult(index)` is a handle whose `exists()` is
`false`, and only forcing it with `execute()` raises `NodeNotFound`; likewise
`getChild(index)` on a node with fewer children. -/
theorem C9_index_past_end :
    ∀ (base : Handle) (selector : Selector) (s : ProjState) (index : Nat),
      (∀ matchList : List VNode,
        collExecute base selector s = Except.ok matchList → matchList.length ≤ index →
        Handle.existsQ (Handle.collResult base selector index) s = Except.ok false ∧
        Handle.execute (Handle.collResult base selector index) s
          = Except.error QueryError.nodeNotFound) ∧
      (∀ (v : VNode) (cs : List VNode),
        Handle.execute base s = Except.ok v → v.children = some cs →
        cs.length ≤ index →
        Handle.existsQ (Handle.child base index) s = Except.ok false ∧
        Handle.execute (Handle.child base index) s
          = Except.error QueryError.nodeNotFound) := by
  intro base selector s index
  constructor
  · intro matchList hcoll hlen
    have hres : resolve (Handle.collResult base selector index) s = Except.ok none := by
      rw [resolve_collResult, hcoll]
      show Except.ok (matchList.get? index) = Except.ok none
      rw [List.get?_eq_none.mpr hlen]
    simp [Handle.existsQ, existsOf, Handle.execute, executeOf, hres, Except.map]
  · intro v cs hexec hch hlen
    have hres : resolve (Handle.child base index) s = Except.ok none := by
      rw [resolve_child_eq, hexec]
      show (match v.children with
        | none => Except.error QueryError.typeErr
        | some cs => Except.ok (cs.get? index)) = Except.ok none
      rw [hch]
      show Except.ok (cs.get? index) = Except.ok none
      rw [List.get?_eq_none.mpr hlen]
    simp [Handle.existsQ, existsOf, Handle.execute, executeOf, hres, Except.map]

/-- Witness for C9: a query with no matchList, indexed at 0, and `getChild(5)` on the
sample root (which has 2 children). -/
theorem C9_index_past_end_witness :
    Handle.existsQ (Handle.collResult Handle.root (Selector.str ".nomatch") 0)
        (some sampleTree) = Except.ok false ∧
    Handle.execute (Handle.collResult Handle.root (Selector.str ".nomatch") 0)
        (some sampleTree) = Except.error QueryError.nodeNotFound :=
  (C9_index_past_end Handle.root (Selector.str ".nomatch") (some sampleTree) 0).1
    [] rfl (by decide)

/-- C10: the projector-level `queryAll` wraps the produced root in a synthetic parent
whose only child is the root, so a root satisfying the predicate appears in (indeed
heads) the projector-level result, whereas `query`/`queryAll` on a resolved node
never includes that node itself. -/
theorem C10_projector_can_match_root :
    ∀ (t : VNode) (p : VNode → Bool),
      (p t = true →
        projectorQueryAll (Selector.pred p) (some t) =
          Except.ok (t :: (preorderForestOf t).filter p)) ∧
      t ∉ filterDescendants t p := by
  intro t p
  refine ⟨?_, not_mem_filterDescendants_self t p⟩
  intro hp
  have hstart : resolve Handle.projStart (some t)
      = Except.ok (some (syntheticStartNode t)) := rfl
  rw [projectorQueryAll, collExecute, hstart]
  show Except.ok (filterDescendants (syntheticStartNode t) p) = _
  rw [filterDescendants_syntheticStart, hp]
  simp

/-- Witness for C10: the sample tree's root matchList the predicate for tag `div`. -/
theorem C10_projector_can_match_root_witness :
    projectorQueryAll (Selector.pred (fun v => v.vnodeSelector == "div"))
        (some sampleTree) =
      Except.ok (sampleTree ::
        (preorderForestOf sampleTree).filter (fun v => v.vnodeSelector == "div")) :=
  (C10_projector_can_match_root sampleTree (fun v => v.vnodeSelector == "div")).1 rfl


end MaquetteQuery
